import Mathlib

/-!
Shallow embedding of the auth/token lifecycle and HTTP execution layer of the
Integra Contador SDK (src/src/auth/manager.py, src/src/http/session.py,
src/src/http/executor.py), with theorems checking the natural-language
specification against it.

Timestamps (Python `time.time()` floats) are modelled as rationals; network
and filesystem effects are modelled by explicit state passing and oracles.
-/

namespace IntegraSDK

/-- Mirror of `integra_sdk.types.auth.TokenResponse` (pydantic model). -/
structure TokenResponse where
  expires_in : Int
  scope : String
  token_type : String
  access_token : String
  jwt_token : String
  jwt_pucomex : Option String
deriving Repr, DecidableEq

/-- Python's `str.lower()` restricted to per-character lowercasing (token
types are ASCII). -/
def strLower (s : String) : String :=
  String.mk (s.data.map Char.toLower)

/-- Mirror of the `validate_token_type` pydantic validator: token_type must
case-insensitively equal "Bearer", else `TokenResponse(...)` construction raises. -/
def tokenTypeValid (t : TokenResponse) : Bool :=
  strLower t.token_type == "bearer"

/-- JSON content of a well-formed `token.json`: each field may be missing
(`none`); `jwt_pucomex` may be present with a null value. -/
structure TokenFileJson where
  expires_in : Option Int
  scope : Option String
  token_type : Option String
  access_token : Option String
  jwt_token : Option String
  jwt_pucomex : Option (Option String)
  saved_at : Option Rat
deriving Repr, DecidableEq

/-- Content of the on-disk token file: either invalid JSON or a parsed object. -/
inductive TokenFileContent where
  | malformed
  | json (data : TokenFileJson)
deriving Repr, DecidableEq

/-- The mutable state owned by one `AuthManager` instance: the in-memory token
cache slot (`_cached_token`, `_token_expires_at`) and the content of the
on-disk token file (`token.json`), `none` when the file does not exist. -/
structure AuthState where
  cached_token : Option TokenResponse
  token_expires_at : Option Rat
  token_file : Option TokenFileContent
deriving Repr, DecidableEq

/-- Mirror of `AuthManager._is_token_valid` (manager.py:157-179).  `cached` and
`cachedExp` are the instance fields used as fallback when the arguments are
`None`; returns true iff a token and expiry are present (after fallback) and
`now < expires_at - 60`. -/
def is_token_valid (cached : Option TokenResponse) (cachedExp : Option Rat)
    (token : Option TokenResponse) (expires_at : Option Rat) (now : Rat) : Bool :=
  let token_to_check := match token with | some t => some t | none => cached
  let expires_to_check := match expires_at with | some e => some e | none => cachedExp
  match token_to_check, expires_to_check with
  | some _, some e => decide (now < e - 60)
  | _, _ => false

/-- `_is_token_valid` called on a manager state (fallback fields from the state). -/
def is_token_valid_state (st : AuthState) (token : Option TokenResponse)
    (expires_at : Option Rat) (now : Rat) : Bool :=
  is_token_valid st.cached_token st.token_expires_at token expires_at now

/-- Mirror of `AuthManager._save_token_to_file` (manager.py:181-203): the JSON
object written to `token.json`, with `saved_at` the current time. -/
def save_token_to_file (t : TokenResponse) (now : Rat) : TokenFileContent :=
  .json { expires_in := some t.expires_in
          scope := some t.scope
          token_type := some t.token_type
          access_token := some t.access_token
          jwt_token := some t.jwt_token
          jwt_pucomex := some t.jwt_pucomex
          saved_at := some now }

/-- Mirror of `AuthManager._load_token_from_file` (manager.py:205-247).
Missing file, invalid JSON, missing required fields, or a failing
`TokenResponse` validation all yield `(none, none)`; otherwise the token and
`saved_at + expires_in` (with `saved_at` defaulting to the current time). -/
def load_token_from_file (file : Option TokenFileContent) (now : Rat) :
    Option TokenResponse × Option Rat :=
  match file with
  | none => (none, none)
  | some .malformed => (none, none)
  | some (.json d) =>
    match d.expires_in, d.access_token, d.jwt_token, d.token_type with
    | some ei, some acc, some jwt, some tt =>
      let tok : TokenResponse :=
        { expires_in := ei
          scope := d.scope.getD "default"
          token_type := tt
          access_token := acc
          jwt_token := jwt
          jwt_pucomex := d.jwt_pucomex.getD none }
      if tokenTypeValid tok then
        let saved_at := d.saved_at.getD now
        (some tok, some (saved_at + (ei : Rat)))
      else (none, none)
    | _, _, _, _ => (none, none)

/-- Body of an identity-provider HTTP response, abstracting JSON parsing:
`text` is the raw body (`response.text`); `asToken` is the result of
`TokenResponse(**response.json())` (`none` when parsing or validation raises);
`asError` is the `message` of `AuthErrorResponse(**response.json())`
(`none` when that raises). -/
structure AuthResponseBody where
  text : String
  asToken : Option TokenResponse
  asError : Option String
deriving Repr, DecidableEq

/-- Outcome of the single `requests` POST inside `get_token`: either an HTTP
response with a status code and body, or a `requests.exceptions.RequestException`
whose attached response status (when any) is `respStatus`. -/
inductive NetworkResult where
  | response (status : Nat) (body : AuthResponseBody)
  | transportError (respStatus : Option Nat)
deriving Repr, DecidableEq

/-- Result of `AuthManager.get_token`: the returned token or the raised typed
error, each error carrying the fields the code sets on it
(`status_code` and `details = \x7b"response": response.text\x7d`, or the
`HTTPError` status code). -/
inductive AuthOutcome where
  | token (t : TokenResponse)
  | certificateError (message : String) (status_code : Nat) (responseText : String)
  | invalidCredentialsError (message : String) (status_code : Nat) (responseText : String)
  | authError (message : String) (status_code : Nat) (responseText : String)
  | httpError (status_code : Nat) (message : String)
deriving Repr, DecidableEq

/-- Observable result of one `get_token` call: outcome, post-state, and how
many network acquisitions and token-file reads were performed. -/
structure GetTokenResult where
  outcome : AuthOutcome
  state : AuthState
  networkCalls : Nat
  fileReads : Nat
deriving Repr, DecidableEq

/-- The `message` extraction common to the error branches of `get_token`:
parse the body as `AuthErrorResponse` and use its `message`, falling back to a
fixed string when parsing raises. -/
def auth_error_message (body : AuthResponseBody) (fallback : String) : String :=
  body.asError.getD fallback

/-- The network-acquisition tail of `AuthManager.get_token`
(manager.py:300-408), reached when neither cache is valid.  `prod` is
`environment == Environment.PRODUCTION` (controls the config re-save, which
does not touch the modelled state).  One file read (the cache-miss load)
already happened before this point; callers add it. -/
def acquire_token (st : AuthState) (now : Rat) (net : NetworkResult) :
    AuthOutcome × AuthState :=
  match net with
  | .response s body =>
    if s = 200 then
      match body.asToken with
      | some tok =>
        (AuthOutcome.token tok,
         { cached_token := some tok
           token_expires_at := some (now + (tok.expires_in : Rat))
           token_file := some (save_token_to_file tok now) })
      | none =>
        -- `response.json()` / `TokenResponse(**...)` raised: caught by the
        -- generic `except Exception` handler, wrapped as HTTPError(0, ...)
        (AuthOutcome.httpError 0 "Unexpected error during authentication", st)
    else if s = 400 then
      (AuthOutcome.certificateError
         (auth_error_message body
           "Não foi possível identificar um certificado digital válido.")
         400 body.text, st)
    else if s = 401 ∨ s = 403 then
      (AuthOutcome.invalidCredentialsError
         (auth_error_message body "Credenciais inválidas.") s body.text, st)
    else
      (AuthOutcome.authError
         (auth_error_message body
           ("Authentication failed with status " ++ toString s))
         s body.text, st)
  | .transportError respStatus =>
    (AuthOutcome.httpError (respStatus.getD 0) "HTTP error during authentication", st)

/-- Mirror of `AuthManager.get_token` (manager.py:249-408): in-memory cache if
valid, else on-disk token if valid (promoted to memory), else one network
acquisition whose success is cached in memory and on disk. -/
def get_token (st : AuthState) (now : Rat) (net : NetworkResult) : GetTokenResult :=
  if is_token_valid_state st none none now && st.cached_token.isSome then
    { outcome := AuthOutcome.token (st.cached_token.getD default_token)
      state := st, networkCalls := 0, fileReads := 0 }
  else
    let (file_token, file_expires_at) := load_token_from_file st.token_file now
    if file_token.isSome && is_token_valid_state st file_token file_expires_at now then
      { outcome := AuthOutcome.token (file_token.getD default_token)
        state := { st with cached_token := file_token, token_expires_at := file_expires_at }
        networkCalls := 0, fileReads := 1 }
    else
      let (outcome, st') := acquire_token st now net
      { outcome := outcome, state := st', networkCalls := 1, fileReads := 1 }
where
  /-- never reached: guarded by `isSome` -/
  default_token : TokenResponse :=
    { expires_in := 0, scope := "", token_type := "", access_token := ""
      jwt_token := "", jwt_pucomex := none }

/-- Mirror of `AuthManager.clear_cache` (manager.py:410-413): null both
in-memory fields, leave the disk file as it is. -/
def clear_cache (st : AuthState) : AuthState :=
  { st with cached_token := none, token_expires_at := none }

/-- Mirror of `AuthManager.clear_stored_token` (manager.py:415-423):
`clear_cache`, then delete the token file if it exists; `unlinkSucceeds`
models whether the `unlink` call raises (a raise is caught and logged, so the
function always returns normally). -/
def clear_stored_token (st : AuthState) (unlinkSucceeds : Bool) : AuthState :=
  let st' := clear_cache st
  if st'.token_file.isSome then
    if unlinkSucceeds then { st' with token_file := none } else st'
  else st'

/-- A business-API HTTP response as seen by session/executor code: status code,
raw text, and the result of `response.json()` — `some (.obj _)` for a JSON
object (a Python dict), `some (.nonObj _)` for other valid JSON, `none` when
parsing raises. -/
inductive JsonParse where
  | obj (payload : String)
  | nonObj (payload : String)
deriving Repr, DecidableEq

/-- HTTP response record used by `HTTPSession.request` / `HTTPExecutor.execute`. -/
structure HttpResponse where
  status : Nat
  text : String
  parsed : Option JsonParse
deriving Repr, DecidableEq

/-- Outcome of one transport attempt inside `HTTPSession.request`: a received
response (any status), or an `httpx.TimeoutException`/`httpx.NetworkError`
carrying an error description. -/
inductive AttemptOutcome where
  | got (r : HttpResponse)
  | retryableError (e : String)
deriving Repr, DecidableEq

/-- Observable trace of one `HTTPSession.request` call: result (response or
re-raised last transport error), number of attempts performed, and the
`asyncio.sleep` delays in order. -/
structure RequestTrace where
  result : Except String HttpResponse
  attempts : Nat
  sleeps : List Rat
deriving Repr

/-- The retry loop of `HTTPSession.request` (session.py:69-93), unrolled from
attempt index `attempt` with current `backoff`.  `transport n` is the outcome
of the n-th underlying `client.request` call. -/
def request_from (transport : Nat → AttemptOutcome) (max_retries : Nat)
    (attempt : Nat) (backoff : Rat) : RequestTrace :=
  match transport attempt with
  | .got r => { result := .ok r, attempts := 1, sleeps := [] }
  | .retryableError e =>
    if h : attempt < max_retries then
      let rest := request_from transport max_retries (attempt + 1) (backoff * 2)
      { result := rest.result, attempts := rest.attempts + 1
        sleeps := backoff :: rest.sleeps }
    else
      { result := .error e, attempts := 1, sleeps := [] }
termination_by max_retries - attempt
decreasing_by omega

/-- Mirror of `HTTPSession.request` (session.py:48-93) for a session with the
given `max_retries` and `retry_backoff`. -/
def HTTPSession.request (transport : Nat → AttemptOutcome) (max_retries : Nat)
    (retry_backoff : Rat) : RequestTrace :=
  request_from transport max_retries 0 retry_backoff

/-- `error_body` computed by `HTTPExecutor.execute` on a status >= 400
(executor.py:85-88): `response.json()` when it parses, else `response.text`. -/
inductive ErrorBody where
  | jsonBody (j : JsonParse)
  | textBody (s : String)
deriving Repr, DecidableEq

/-- The error payload attached to the raised error. -/
def executor_error_body (r : HttpResponse) : ErrorBody :=
  match r.parsed with
  | some j => ErrorBody.jsonBody j
  | none => ErrorBody.textBody r.text

/-- Result of `HTTPExecutor.execute` response handling: parsed response data,
or the raised `HTTPError(status, error_body)` (status >= 500), or the raised
`APIError(status, response_body)` whose body is a dict or `None`
(executor.py:84-107). -/
inductive ExecOutcome where
  | ok (data : ErrorBody)
  | httpError (status_code : Nat) (response_body : ErrorBody)
  | apiError (status_code : Nat) (response_body : Option JsonParse)
deriving Repr, DecidableEq

/-- Mirror of the response handling in `HTTPExecutor.execute`
(executor.py:84-107), given the response the session returned. -/
def execute_handle (r : HttpResponse) : ExecOutcome :=
  if r.status ≥ 400 then
    let eb := executor_error_body r
    if r.status ≥ 500 then
      ExecOutcome.httpError r.status eb
    else
      ExecOutcome.apiError r.status
        (match eb with
         | ErrorBody.jsonBody (JsonParse.obj p) => some (JsonParse.obj p)
         | _ => none)
  else
    match r.parsed with
    | some j => ExecOutcome.ok (ErrorBody.jsonBody j)
    | none => ExecOutcome.ok (ErrorBody.textBody r.text)

/-- The diagnostic body carried by a raised executor error (`none` when the
error carries no body). -/
def carried_body : ExecOutcome → Option ErrorBody
  | ExecOutcome.httpError _ b => some b
  | ExecOutcome.apiError _ (some j) => some (ErrorBody.jsonBody j)
  | ExecOutcome.apiError _ none => none
  | ExecOutcome.ok _ => none

/-- Stated from the spec's words (refinement side, not from the code): on any
error status the raised error carries the parsed JSON body when the body is
valid JSON, and the raw response text otherwise. -/
def spec_executor_carries_body (r : HttpResponse) : Prop :=
  (r.status ≥ 500 → carried_body (execute_handle r) = some (executor_error_body r))
  ∧ (400 ≤ r.status ∧ r.status ≤ 499 →
      carried_body (execute_handle r) = some (executor_error_body r))

/-- A concrete well-formed token used by several witnesses. -/
def sampleToken : TokenResponse :=
  { expires_in := 2000, scope := "default", token_type := "Bearer"
    access_token := "tok1", jwt_token := "jwt1", jwt_pucomex := none }

/-- C2: `_is_token_valid` is true iff a token and an expiry timestamp are
present and the current time is strictly below the expiry minus the fixed
60-second buffer; consequently a token with `expires_in > 60` is valid
immediately after acquisition (expiry `now + expires_in`) and invalid once
the time reaches or passes `expires_at - 60`. -/
theorem C2_token_validity :
    (∀ (c : Option TokenResponse) (ce : Option Rat) (t : TokenResponse) (e now : Rat),
       is_token_valid c ce (some t) (some e) now = true ↔ now < e - 60)
    ∧ (∀ (t : TokenResponse) (now : Rat),
       is_token_valid none none (some t) none now = false)
    ∧ (∀ (e now : Rat), is_token_valid none none none (some e) now = false)
    ∧ (∀ (c : Option TokenResponse) (ce : Option Rat) (t : TokenResponse) (now : Rat),
       (60 : Rat) < (t.expires_in : Rat) →
       is_token_valid c ce (some t) (some (now + (t.expires_in : Rat))) now = true)
    ∧ (∀ (c : Option TokenResponse) (ce : Option Rat) (t : TokenResponse)
         (now now2 : Rat),
       now + (t.expires_in : Rat) - 60 ≤ now2 →
       is_token_valid c ce (some t) (some (now + (t.expires_in : Rat))) now2 = false) := by
  refine ⟨?_, ?_, ?_, ?_, ?_⟩
  · intro c ce t e now
    simp [is_token_valid]
  · intro t now
    simp [is_token_valid]
  · intro e now
    simp [is_token_valid]
  · intro c ce t now h
    simp only [is_token_valid, decide_eq_true_eq]
    linarith
  · intro c ce t now now2 h
    simp only [is_token_valid, decide_eq_false_iff_not, not_lt]
    linarith

/-- Witness for C2 at concrete inputs. -/
theorem C2_token_validity_witness :
    (is_token_valid none none (some sampleToken) (some 2000) 100 = true ↔
       (100 : Rat) < 2000 - 60)
    ∧ ((60 : Rat) < ((2000 : Int) : Rat)
       ∧ is_token_valid none none (some sampleToken)
           (some (100 + ((2000 : Int) : Rat))) 100 = true)
    ∧ ((100 : Rat) + ((2000 : Int) : Rat) - 60 ≤ 2100
       ∧ is_token_valid none none (some sampleToken)
           (some (100 + ((2000 : Int) : Rat))) 2100 = false) :=
  ⟨C2_token_validity.1 none none sampleToken 2000 100,
   ⟨by norm_num [sampleToken],
    C2_token_validity.2.2.2.1 none none sampleToken 100 (by norm_num [sampleToken])⟩,
   ⟨by norm_num [sampleToken],
    C2_token_validity.2.2.2.2 none none sampleToken 100 2100 (by norm_num [sampleToken])⟩⟩

/-- C9: `clear_cache` nulls both in-memory fields and leaves the on-disk token
file unchanged; `clear_stored_token` nulls the in-memory cache regardless and
removes the token file exactly when the delete succeeds (a failed delete is
logged, never raised). -/
theorem C9_clear_operations :
    (∀ st : AuthState,
       (clear_cache st).cached_token = none
       ∧ (clear_cache st).token_expires_at = none
       ∧ (clear_cache st).token_file = st.token_file)
    ∧ (∀ (st : AuthState) (unlinkSucceeds : Bool),
       (clear_stored_token st unlinkSucceeds).cached_token = none
       ∧ (clear_stored_token st unlinkSucceeds).token_expires_at = none
       ∧ (clear_stored_token st unlinkSucceeds).token_file =
           (if unlinkSucceeds then none else st.token_file)) := by
  constructor
  · intro st
    exact ⟨rfl, rfl, rfl⟩
  · intro st u
    cases hf : st.token_file <;> cases u <;>
      simp [clear_stored_token, clear_cache, hf]

/-- C5: if the first transport attempt yields any HTTP response (any status
code), `HTTPSession.request` performs exactly one attempt, returns that
response, and sleeps never. -/
theorem C5_response_no_retry (transport : Nat → AttemptOutcome) (max_retries : Nat)
    (retry_backoff : Rat) (r : HttpResponse)
    (h : transport 0 = AttemptOutcome.got r) :
    HTTPSession.request transport max_retries retry_backoff =
      { result := Except.ok r, attempts := 1, sleeps := [] } := by
  unfold HTTPSession.request
  rw [request_from, h]

/-- Witness for C5: a deterministic 404 response is returned after exactly one
attempt. -/
theorem C5_response_no_retry_witness :
    HTTPSession.request
        (fun _ => AttemptOutcome.got { status := 404, text := "not found", parsed := none })
        3 1 =
      { result := Except.ok { status := 404, text := "not found", parsed := none }
        attempts := 1, sleeps := [] } :=
  C5_response_no_retry _ 3 1 _ rfl

/-- C7: a malformed token file, or one missing a required field, loads as
`(none, none)` without error, and `get_token` then performs a network
acquisition. -/
theorem C7_malformed_file_cache_miss :
    (∀ now : Rat,
       load_token_from_file (some TokenFileContent.malformed) now = (none, none))
    ∧ (∀ (d : TokenFileJson) (now : Rat),
        d.expires_in = none ∨ d.access_token = none
          ∨ d.jwt_token = none ∨ d.token_type = none →
        load_token_from_file (some (TokenFileContent.json d)) now = (none, none))
    ∧ (∀ (st : AuthState) (now : Rat) (net : NetworkResult),
        is_token_valid_state st none none now = false →
        load_token_from_file st.token_file now = (none, none) →
        (get_token st now net).networkCalls = 1) := by
  refine ⟨?_, ?_, ?_⟩
  · intro now
    rfl
  · intro d now h
    cases hei : d.expires_in <;> cases hacc : d.access_token <;>
      cases hjwt : d.jwt_token <;> cases htt : d.token_type <;>
      simp_all [load_token_from_file]
  · intro st now net hmem hload
    rcases hacq : acquire_token st now net with ⟨o, s2⟩
    simp [get_token, hmem, hload, hacq]

/-- Witness for C7 at concrete inputs: an empty-fielded token file and a
malformed one both miss, and a state with no caches performs one network call. -/
theorem C7_malformed_file_cache_miss_witness :
    (load_token_from_file
        (some (TokenFileContent.json
          { expires_in := none, scope := none, token_type := none
            access_token := some "tok1", jwt_token := some "jwt1"
            jwt_pucomex := none, saved_at := none })) 100 = (none, none))
    ∧ ((get_token
          { cached_token := none, token_expires_at := none
            token_file := some TokenFileContent.malformed }
          100 (NetworkResult.transportError none)).networkCalls = 1) :=
  ⟨C7_malformed_file_cache_miss.2.1 _ 100 (Or.inl rfl),
   C7_malformed_file_cache_miss.2.2 _ 100 _ rfl
     (C7_malformed_file_cache_miss.1 100)⟩

/-- C8: saving a token to disk and loading it back yields exactly the same
token and the expiry `saved_at + expires_in`, where `saved_at` is the save
time. -/
theorem C8_disk_round_trip (t : TokenResponse) (saveTime loadTime : Rat)
    (h : tokenTypeValid t = true) :
    load_token_from_file (some (save_token_to_file t saveTime)) loadTime =
      (some t, some (saveTime + (t.expires_in : Rat))) := by
  simp [load_token_from_file, save_token_to_file, h]

/-- Witness for C8 on a concrete Bearer token. -/
theorem C8_disk_round_trip_witness :
    tokenTypeValid sampleToken = true
    ∧ load_token_from_file (some (save_token_to_file sampleToken 100)) 500 =
        (some sampleToken, some (100 + ((2000 : Int) : Rat))) :=
  ⟨by decide, C8_disk_round_trip sampleToken 100 500 (by decide)⟩

/-- A manager state with no in-memory token and no token file, used by witnesses. -/
def emptyState : AuthState :=
  { cached_token := none, token_expires_at := none, token_file := none }

/-- A sample identity-provider error body whose JSON parses with message "bad". -/
def sampleErrBody : AuthResponseBody :=
  { text := "err", asToken := none, asError := some "bad" }

/-- C3: identity-provider status 400 raises `CertificateError`, 401/403 raise
`InvalidCredentialsError`, any other non-2xx raises `AuthError`, all carrying
the original status code and raw body; a transport failure raises `HTTPError`
with the underlying response status, reported as 0 when none is available. -/
theorem C3_status_code_mapping (st : AuthState) (now : Rat) (body : AuthResponseBody) :
    (acquire_token st now (NetworkResult.response 400 body) =
       (AuthOutcome.certificateError
          (auth_error_message body
            "Não foi possível identificar um certificado digital válido.")
          400 body.text, st))
    ∧ (∀ s : Nat, s = 401 ∨ s = 403 →
        acquire_token st now (NetworkResult.response s body) =
          (AuthOutcome.invalidCredentialsError
             (auth_error_message body "Credenciais inválidas.") s body.text, st))
    ∧ (∀ s : Nat, (s < 200 ∨ 300 ≤ s) → s ≠ 400 → s ≠ 401 → s ≠ 403 →
        acquire_token st now (NetworkResult.response s body) =
          (AuthOutcome.authError
             (auth_error_message body
               ("Authentication failed with status " ++ toString s))
             s body.text, st))
    ∧ (∀ respStatus : Option Nat,
        acquire_token st now (NetworkResult.transportError respStatus) =
          (AuthOutcome.httpError (respStatus.getD 0)
            "HTTP error during authentication", st))
    ∧ (acquire_token st now (NetworkResult.transportError none) =
        (AuthOutcome.httpError 0 "HTTP error during authentication", st)) := by
  refine ⟨?_, ?_, ?_, ?_, ?_⟩
  · simp [acquire_token]
  · rintro s (rfl | rfl) <;> simp [acquire_token]
  · intro s hs h400 h401 h403
    have h200 : s ≠ 200 := by rcases hs with h | h <;> omega
    simp [acquire_token, h200, h400, h401, h403]
  · intro respStatus
    rfl
  · rfl

/-- Witness for C3 at concrete inputs: 401, 500 and a response-less transport
failure. -/
theorem C3_status_code_mapping_witness :
    (acquire_token emptyState 0 (NetworkResult.response 401 sampleErrBody) =
       (AuthOutcome.invalidCredentialsError "bad" 401 "err", emptyState))
    ∧ (acquire_token emptyState 0 (NetworkResult.response 500 sampleErrBody) =
       (AuthOutcome.authError "bad" 500 "err", emptyState))
    ∧ (acquire_token emptyState 0 (NetworkResult.transportError none) =
       (AuthOutcome.httpError 0 "HTTP error during authentication", emptyState)) :=
  ⟨(C3_status_code_mapping emptyState 0 sampleErrBody).2.1 401 (Or.inl rfl),
   (C3_status_code_mapping emptyState 0 sampleErrBody).2.2.1 500
     (Or.inr (by norm_num)) (by decide) (by decide) (by decide),
   (C3_status_code_mapping emptyState 0 sampleErrBody).2.2.2.2⟩

/-- C10: a 2xx identity-provider status other than 200 is not treated as a
successful acquisition: nothing is cached (state unchanged, independent of the
body) and `AuthError` is raised carrying that status code. -/
theorem C10_2xx_not_200 (st : AuthState) (now : Rat) (body : AuthResponseBody)
    (s : Nat) (h2xx : 200 ≤ s ∧ s ≤ 299) (hne : s ≠ 200) :
    acquire_token st now (NetworkResult.response s body) =
      (AuthOutcome.authError
         (auth_error_message body
           ("Authentication failed with status " ++ toString s))
         s body.text, st) := by
  have h400 : s ≠ 400 := by omega
  have h401 : s ≠ 401 := by omega
  have h403 : s ≠ 403 := by omega
  simp [acquire_token, hne, h400, h401, h403]

/-- Witness for C10: a 201 response (even one whose body parses as a token)
raises `AuthError` and leaves the state unchanged. -/
theorem C10_2xx_not_200_witness :
    acquire_token emptyState 0
        (NetworkResult.response 201
          { text := "tok", asToken := some sampleToken, asError := none }) =
      (AuthOutcome.authError ("Authentication failed with status " ++ toString 201)
         201 "tok", emptyState) :=
  C10_2xx_not_200 emptyState 0
    { text := "tok", asToken := some sampleToken, asError := none }
    201 (by norm_num) (by decide)

/-- Sleeps of the doubling backoff, peeled one step. -/
theorem backoff_sleeps (backoff : Rat) (k : Nat) :
    (List.range (k + 1)).map (fun i => backoff * 2 ^ i) =
      backoff :: (List.range k).map (fun i => backoff * 2 * 2 ^ i) := by
  rw [List.range_succ_eq_map, List.map_cons, List.map_map]
  congr 1
  · simp
  · apply List.map_congr_left
    intro i _
    simp only [Function.comp_apply, Nat.succ_eq_add_one, pow_succ]
    ring

/-- On an always-failing transport, the retry loop from `attempt` with
`max_retries = attempt + k` makes `k + 1` attempts, re-raises the last error,
and sleeps `backoff, 2*backoff, ...` between attempts. -/
theorem request_from_always_failing (transport : Nat → AttemptOutcome)
    (err : Nat → String)
    (hT : ∀ n, transport n = AttemptOutcome.retryableError (err n)) :
    ∀ (k attempt : Nat) (backoff : Rat),
      request_from transport (attempt + k) attempt backoff =
        { result := Except.error (err (attempt + k)), attempts := k + 1
          sleeps := (List.range k).map (fun i => backoff * 2 ^ i) } := by
  intro k
  induction k with
  | zero =>
    intro attempt backoff
    rw [request_from, hT]
    simp
  | succ k ih =>
    intro attempt backoff
    rw [request_from, hT]
    have hlt : attempt < attempt + (k + 1) := by omega
    dsimp only
    rw [dif_pos hlt]
    have harg : attempt + (k + 1) = (attempt + 1) + k := by omega
    rw [harg, ih (attempt + 1) (backoff * 2)]
    rw [backoff_sleeps]

/-- C4: with `max_retries = N` and a transport failing with a retryable error
on every attempt, `HTTPSession.request` performs exactly `N + 1` attempts,
re-raises the last transport error, and sleeps only between attempts with
delays `base, 2*base, 4*base, ...`. -/
theorem C4_retry_exhaustion (transport : Nat → AttemptOutcome) (err : Nat → String)
    (max_retries : Nat) (base : Rat)
    (hT : ∀ n, transport n = AttemptOutcome.retryableError (err n)) :
    HTTPSession.request transport max_retries base =
      { result := Except.error (err max_retries), attempts := max_retries + 1
        sleeps := (List.range max_retries).map (fun i => base * 2 ^ i) } := by
  unfold HTTPSession.request
  have h := request_from_always_failing transport err hT max_retries 0 base
  simpa using h

/-- Witness for C4: `max_retries = 3` and an always-timing-out transport give
exactly 4 attempts with delays `base, 2*base, 4*base` (base = 1). -/
theorem C4_retry_exhaustion_witness :
    HTTPSession.request (fun _ => AttemptOutcome.retryableError "timeout") 3 1 =
      { result := Except.error "timeout", attempts := 4, sleeps := [1, 2, 4] } := by
  have h := C4_retry_exhaustion (fun _ => AttemptOutcome.retryableError "timeout")
    (fun _ => "timeout") 3 1 (fun _ => rfl)
  rw [h]
  norm_num [List.range_succ]

/-- C1: `get_token` resolution order.  (a) a valid in-memory token is returned
with no network call and no file read; (b) otherwise a valid on-disk token is
returned and promoted to memory with no network call; (c) otherwise exactly
one network acquisition runs and, on success, the token is cached in memory
and written to the token file. -/
theorem C1_get_token_resolution (st : AuthState) (now : Rat) (net : NetworkResult) :
    (is_token_valid_state st none none now = true →
      ∃ ct, st.cached_token = some ct ∧
        get_token st now net =
          { outcome := AuthOutcome.token ct, state := st
            networkCalls := 0, fileReads := 0 })
    ∧ (∀ (ft : TokenResponse) (fe : Option Rat),
        is_token_valid_state st none none now = false →
        load_token_from_file st.token_file now = (some ft, fe) →
        is_token_valid_state st (some ft) fe now = true →
        get_token st now net =
          { outcome := AuthOutcome.token ft
            state := { st with cached_token := some ft, token_expires_at := fe }
            networkCalls := 0, fileReads := 1 })
    ∧ (∀ (ft : Option TokenResponse) (fe : Option Rat),
        is_token_valid_state st none none now = false →
        load_token_from_file st.token_file now = (ft, fe) →
        (ft.isSome = false ∨ is_token_valid_state st ft fe now = false) →
        (get_token st now net).networkCalls = 1
        ∧ (∀ (body : AuthResponseBody) (tok : TokenResponse),
            net = NetworkResult.response 200 body → body.asToken = some tok →
            get_token st now net =
              { outcome := AuthOutcome.token tok
                state := { cached_token := some tok
                           token_expires_at := some (now + (tok.expires_in : Rat))
                           token_file := some (save_token_to_file tok now) }
                networkCalls := 1, fileReads := 1 })) := by
  refine ⟨?_, ?_, ?_⟩
  · intro hmem
    cases hct : st.cached_token with
    | none =>
      exfalso
      simp [is_token_valid_state, is_token_valid, hct] at hmem
    | some ct =>
      exact ⟨ct, rfl, by simp [get_token, hmem, hct]⟩
  · intro ft fe hmem hload hvalid
    simp [get_token, hmem, hload, hvalid]
  · intro ft fe hmem hload hmiss
    have hguard : (ft.isSome && is_token_valid_state st ft fe now) = false := by
      rcases hmiss with h | h <;> simp [h]
    constructor
    · rcases hacq : acquire_token st now net with ⟨o, s2⟩
      simp [get_token, hmem, hload, hguard, hacq]
    · intro body tok hnet htok
      subst hnet
      have hacq : acquire_token st now (NetworkResult.response 200 body) =
          (AuthOutcome.token tok,
           { cached_token := some tok
             token_expires_at := some (now + (tok.expires_in : Rat))
             token_file := some (save_token_to_file tok now) }) := by
        simp [acquire_token, htok]
      simp [get_token, hmem, hload, hguard, hacq]

/-- Witness for C1: (a) a valid in-memory token is served from memory; (c) an
empty state with a 200 network response caches the acquired token in memory
and on disk. -/
theorem C1_get_token_resolution_witness :
    (∃ ct, (AuthState.mk (some sampleToken) (some 2000) none).cached_token = some ct ∧
      get_token (AuthState.mk (some sampleToken) (some 2000) none) 100
          (NetworkResult.transportError none) =
        { outcome := AuthOutcome.token ct
          state := AuthState.mk (some sampleToken) (some 2000) none
          networkCalls := 0, fileReads := 0 })
    ∧ get_token emptyState 100
        (NetworkResult.response 200
          { text := "ok", asToken := some sampleToken, asError := none }) =
        { outcome := AuthOutcome.token sampleToken
          state := { cached_token := some sampleToken
                     token_expires_at := some (100 + ((sampleToken.expires_in : Int) : Rat))
                     token_file := some (save_token_to_file sampleToken 100) }
          networkCalls := 1, fileReads := 1 } :=
  ⟨(C1_get_token_resolution (AuthState.mk (some sampleToken) (some 2000) none) 100
      (NetworkResult.transportError none)).1
      (by simp [is_token_valid_state, is_token_valid]; norm_num),
   ((C1_get_token_resolution emptyState 100
      (NetworkResult.response 200
        { text := "ok", asToken := some sampleToken, asError := none })).2.2
     none none (by decide) rfl (Or.inl rfl)).2
     { text := "ok", asToken := some sampleToken, asError := none }
     sampleToken rfl rfl⟩

/-- C6 counterexample: a 404 response whose body is not valid JSON produces an
`APIError` carrying no body at all (`None`), not the raw response text the
claim requires. -/
theorem C6_counterexample :
    ¬ spec_executor_carries_body { status := 404, text := "oops", parsed := none } := by
  intro h
  have h4 := h.2 (by norm_num)
  simp [execute_handle, executor_error_body, carried_body] at h4

/-- C6 as amended: a status >= 500 raises `HTTPError` carrying the parsed JSON
body when the body is valid JSON and the raw text otherwise; a status in
400-499 raises `APIError` carrying the parsed JSON body when the body is a
JSON object and carrying no body (`None`) otherwise. -/
theorem C6_executor_error_bodies (r : HttpResponse) :
    (r.status ≥ 500 →
      execute_handle r = ExecOutcome.httpError r.status (executor_error_body r))
    ∧ (400 ≤ r.status ∧ r.status ≤ 499 →
        execute_handle r = ExecOutcome.apiError r.status
          (match r.parsed with
           | some (JsonParse.obj p) => some (JsonParse.obj p)
           | _ => none)) := by
  constructor
  · intro h5
    have h4 : r.status ≥ 400 := by omega
    simp [execute_handle, h4, h5]
  · rintro ⟨h4, h9⟩
    have h5 : ¬ r.status ≥ 500 := by omega
    rcases hp : r.parsed with _ | j
    · simp [execute_handle, executor_error_body, h4, h5, hp]
    · cases j <;> simp [execute_handle, executor_error_body, h4, h5, hp]

/-- Witness for C6 as amended: a 500 with non-JSON body carries the raw text;
a 404 with a JSON-object body carries that object; a 404 with non-JSON body
carries nothing. -/
theorem C6_executor_error_bodies_witness :
    (execute_handle { status := 500, text := "boom", parsed := none } =
       ExecOutcome.httpError 500 (ErrorBody.textBody "boom"))
    ∧ (execute_handle { status := 404, text := "j", parsed := some (JsonParse.obj "e") } =
       ExecOutcome.apiError 404 (some (JsonParse.obj "e")))
    ∧ (execute_handle { status := 404, text := "oops", parsed := none } =
       ExecOutcome.apiError 404 none) :=
  ⟨(C6_executor_error_bodies { status := 500, text := "boom", parsed := none }).1
     (by norm_num),
   (C6_executor_error_bodies { status := 404, text := "j", parsed := some (JsonParse.obj "e") }).2
     (by norm_num),
   (C6_executor_error_bodies { status := 404, text := "oops", parsed := none }).2
     (by norm_num)⟩

end IntegraSDK
